import Mathlib

/-!
# BurgerBrowsWeb : shallow embedding of the wallet / browser workflow

This development embeds the logic of the client component in
src/src/app/page.tsx (the BurgerBrowsApp component) and settles the
frozen claims about it.

Modelling conventions:
* Each wallet operation is embedded as a pure function from the results
  of its awaited external calls (given by a small environment record)
  to the ordered list of observable events it produces: log lines,
  loading-flag updates, contract calls and scheduled callbacks.
  A contract-call event is emitted at the point where the source issues
  the request, before its result is known.
* Token amounts are the raw integer units the contracts see
  (6-decimal fixed point), as `Nat` (chain values are unsigned).
* A transaction send and the following receipt wait are collapsed into
  one environment field when no observable event separates them
  (the approve step of the deposit); otherwise they are separate fields.
* The rendering of a thrown JavaScript error object into a string is
  abstracted: errors carried by an environment are already strings, and
  the error text produced by a failing parseUnits call is the abstract
  constant `invalidDecimalError`.  No theorem depends on its exact text.
-/

namespace BurgerBrows

/-! ## Constants from the source -/

def USDC_ADDRESS : String := "0xE32f7a8eB4Fb132675292306A5928071d126F082"

def BROWSER_VAULT : String := "0x9dAE42f31DB601fD0094c05d5b52Eb0a3074f786"

def REWARD_POOL : String := "0xc7Fd8EF7Ee3e93e8eff2E12715E504aDfbaE3750"

/-- The hard-coded hackathon (faucet) wallet key used by mintTestUSDC and
claimRewards. -/
def FAUCET_PRIVATE_KEY : String :=
  "0x05b40792c4a08ab87063e304a619f586921473c6bd74834e322a9fc202951eec"

/-! ## Data model -/

/-- The persisted wallet record (interface UserWallet). -/
structure UserWallet where
  address : String
  privateKey : String
  deviceHash : String
deriving Repr, DecidableEq

/-- Observable events of an operation, in program order.  `callVaultDeposit`
is in the vocabulary so that its absence from a trace is expressible; the
component under src/ never emits it. -/
inductive Ev where
  | log (msg : String)
  | setLoading (b : Bool)
  | callBalanceOf (contract owner : String)
  | callMint (contract signerKey dest : String) (amount : Nat)
  | callApprove (contract signerKey spender : String) (amount : Nat)
  | callTransfer (contract signerKey dest : String) (amount : Nat)
  | callVaultDeposit (vault signerKey : String) (amount : Nat)
  | scheduleRefresh (delayMs : Nat)
  | scheduleBrowseReward (delayMs : Nat)
deriving Repr, DecidableEq

/-- Contract interactions (reads and mutations) issued over the RPC link. -/
def Ev.isNetworkCall : Ev → Bool
  | .callBalanceOf _ _ => true
  | .callMint _ _ _ _ => true
  | .callApprove _ _ _ _ => true
  | .callTransfer _ _ _ _ => true
  | .callVaultDeposit _ _ _ => true
  | _ => false

/-- The contract calls of a trace, in order. -/
def networkCalls (t : List Ev) : List Ev :=
  t.filter Ev.isNetworkCall

/-- The log messages of a trace, in order. -/
def logsOf (t : List Ev) : List String :=
  t.filterMap fun e => match e with
    | Ev.log m => some m
    | _ => none

/-! ## String helpers

Kernel-reducible counterparts of the JS string primitives the component
uses, operating on the character list of a `String`. -/

/-- JS `s.startsWith(pre)`. -/
def strStartsWith (s pre : String) : Bool :=
  pre.toList.isPrefixOf s.toList

/-- JS `s.slice(0, n)`. -/
def strTake (s : String) (n : Nat) : String :=
  String.mk (s.toList.take n)

/-- JS `s.slice(-n)`: the last n characters (all of them when fewer). -/
def strSliceLast (n : Nat) (s : String) : String :=
  String.mk (s.toList.drop (s.toList.length - n))

/-! ## Numeric helpers (ethers.js formatUnits / parseUnits, JS parseFloat) -/

def digitsToNat (cs : List Char) : Nat :=
  cs.foldl (fun a c => a * 10 + (c.toNat - 48)) 0

def stripTrailingZeros (cs : List Char) : List Char :=
  ((cs.reverse.dropWhile (fun c => c == '0')).reverse)

/-- ethers.formatUnits(v, 6): decimal rendering of a 6-decimal fixed-point
integer; the fractional part keeps at least one digit, with trailing zeros
removed (formatUnits(30000000, 6) is "30.0"). -/
def formatUnits6 (v : Nat) : String :=
  let whole := v / 1000000
  let fracDigits := toString (v % 1000000)
  let padded := String.mk (List.replicate (6 - fracDigits.length) '0') ++ fracDigits
  let trimmed := stripTrailingZeros padded.toList
  toString whole ++ "." ++ (if trimmed.isEmpty then "0" else String.mk trimmed)

/-- ethers.parseUnits(s, 6): parse a non-negative decimal string into raw
6-decimal units; `none` models the TypeError thrown on a malformed value. -/
def parseUnits6 (s : String) : Option Nat :=
  let cs := s.toList
  let intPart := cs.takeWhile Char.isDigit
  let rest := cs.dropWhile Char.isDigit
  match rest with
  | [] => if intPart.isEmpty then none else some (digitsToNat intPart * 1000000)
  | '.' :: r =>
    let fracPart := r.takeWhile Char.isDigit
    let rest2 := r.dropWhile Char.isDigit
    if rest2.isEmpty && !intPart.isEmpty && !fracPart.isEmpty && fracPart.length ≤ 6 then
      some (digitsToNat intPart * 1000000 + digitsToNat fracPart * 10 ^ (6 - fracPart.length))
    else none
  | _ => none

/-- Abstract rendering of the error thrown by ethers.parseUnits on a
malformed decimal string; the exact runtime text is opaque and no theorem
depends on it. -/
def invalidDecimalError (s : String) : String :=
  "invalid decimal value (value=" ++ s ++ ")"

/-- The exact value of a parsed JS number, as the scaled integer
`num / 10 ^ scale` (the denominator is always positive, so sign questions
are questions about `num`).  The inputs this component handles are short
decimal literals, which floats represent without changing their sign or
their comparison against zero. -/
structure JSNumber where
  num : Int
  scale : Nat
deriving Repr, DecidableEq

/-- JS parseFloat on plain decimal literals: optional sign, digits, optional
fractional part; yields `none` for NaN (no leading numeric prefix).
Exponent notation does not occur in the inputs this component handles. -/
def jsParseFloat (s : String) : Option JSNumber :=
  let cs := s.toList
  let signNeg : Bool := match cs with
    | '-' :: _ => true
    | _ => false
  let cs1 := match cs with
    | '-' :: rest => rest
    | '+' :: rest => rest
    | l => l
  let intPart := cs1.takeWhile Char.isDigit
  let rest := cs1.dropWhile Char.isDigit
  let fracPart := match rest with
    | '.' :: r => r.takeWhile Char.isDigit
    | _ => []
  if intPart.isEmpty && fracPart.isEmpty then none
  else
    let n : Int := Int.ofNat (digitsToNat intPart * 10 ^ fracPart.length + digitsToNat fracPart)
    some { num := if signNeg then -n else n, scale := fracPart.length }

/-- The JS comparison `parseFloat(amount) <= 0`: false when the parse gave
NaN (NaN compares false against everything). -/
def jsLeZero (o : Option JSNumber) : Bool :=
  match o with
  | none => false
  | some q => decide (q.num ≤ 0)

/-- ethers.isAddress: 0x followed by 40 hex digits.  Mixed-case strings are
checksummed by ethers; the checksum computation (keccak) is conservatively
modelled by accepting only single-case hex, which is exact on every input
this development evaluates. -/
def isAddress (s : String) : Bool :=
  let cs := s.toList
  let hexPart := cs.drop 2
  let letters := hexPart.filter (fun c => c.isAlpha)
  strStartsWith s "0x" && cs.length == 42 &&
    hexPart.all (fun c => c.isDigit || ('a' ≤ c && c ≤ 'f') || ('A' ≤ c && c ≤ 'F')) &&
    (letters.all (fun c => c.isLower) || letters.all (fun c => c.isUpper))

/-! ## Activity log (addLog, lines 93-96) -/

/-- JS `l.slice(-n)`: the last n elements (all of them when fewer). -/
def jsSliceLast (n : Nat) (l : List α) : List α :=
  l.drop (l.length - n)

/-- The `[timestamp] message` entry text. -/
def stampLog (ts msg : String) : String :=
  "[" ++ ts ++ "] " ++ msg

/-- addLog: setLogs(prev => [...prev.slice(-10), `[timestamp] message`]). -/
def addLog (ts msg : String) (prev : List String) : List String :=
  jsSliceLast 10 prev ++ [stampLog ts msg]

/-- The initial logs state (line 37). -/
def initialLogs : List String := ["🚀 BurgerBrows Web initialized!"]

/-! ## Wallet identity store (initializeWallet, lines 66-90) -/

/-- The two localStorage keys the component writes. -/
inductive StorageKey where
  | wallet
  | deviceId
deriving Repr, DecidableEq

/-- Persisted localStorage state; JSON serialization of the wallet record is
abstracted (the record is stored structurally). -/
structure StoredState where
  walletRecord : Option UserWallet
  deviceId : Option String
deriving Repr, DecidableEq

def emptyStore : StoredState := { walletRecord := none, deviceId := none }

/-- Non-deterministic inputs of a creation run: the random keypair from
ethers.Wallet.createRandom, the keccak fingerprint hex digest (the hash
computation itself is opaque) and the fresh crypto.randomUUID value. -/
structure InitEnv where
  freshAddress : String
  freshPrivateKey : String
  fingerprintHash : String
  freshUUID : String

structure InitResult where
  result : UserWallet
  store : StoredState
  writes : List StorageKey
  logs : List String

/-- initializeWallet: load the persisted record unchanged if present,
else create one (deviceHash is the first 16 characters of the fingerprint
hash), write the wallet record and a fresh device id, and return it.
`writes` lists the localStorage.setItem calls in program order. -/
def initializeWallet (s : StoredState) (env : InitEnv) : InitResult :=
  match s.walletRecord with
  | some wd =>
    { result := wd
      store := s
      writes := []
      logs := ["👋 Welcome back! Loaded wallet: " ++ strTake wd.address 20 ++ "..."] }
  | none =>
    let wd : UserWallet :=
      { address := env.freshAddress
        privateKey := env.freshPrivateKey
        deviceHash := env.fingerprintHash.take 16 }
    { result := wd
      store := { walletRecord := some wd, deviceId := some env.freshUUID }
      writes := [StorageKey.wallet, StorageKey.deviceId]
      logs := ["🆕 New wallet created: " ++ strTake wd.address 20 ++ "...",
               "👤 Device ID: " ++ wd.deviceHash] }

/-! ## Browser viewport (navigateToUrl, lines 329-341) -/

/-- The scheme normalization at the top of navigateToUrl. -/
def normalizeNavUrl (url : String) : String :=
  if !(strStartsWith url "http://") && !(strStartsWith url "https://") then
    "https://" ++ url
  else
    url

structure NavResult where
  currentUrl : String
  browserError : String
  events : List Ev

/-- navigateToUrl: normalize the scheme, set the viewport target, clear the
browser error, log, and schedule the browsing-reward callback. -/
def navigateToUrl (url : String) : NavResult :=
  let u := normalizeNavUrl url
  { currentUrl := u
    browserError := ""
    events := [Ev.log ("🌐 Navigating to: " ++ u), Ev.scheduleBrowseReward 3000] }

/-- The argument of the Home button onClick (line 572) and of the first
quick-access entry. -/
def homeButtonUrl : String := "/google-home.html"

/-- The safeSites quick-access list (lines 319-326). -/
def safeSites : List (String × String) :=
  [("Google", "/google-home.html"),
   ("Test Page", "/test-page.html"),
   ("Example", "https://example.com"),
   ("Wikipedia", "https://en.wikipedia.org"),
   ("Ethereum.org", "https://ethereum.org"),
   ("DuckDuckGo", "https://duckduckgo.com")]

/-! ## Transaction sequencer -/

/-- Results of the awaited calls of mintTestUSDC: the mint transaction send
(hash on success) and the receipt wait (block number on success). -/
structure MintEnv where
  sendResult : Except String String
  waitResult : Except String Nat

/-- mintTestUSDC (lines 149-182): one privileged mint of 100 USDC
(100000000 raw units) to the user address, signed by the faucet key;
a failure of either await is caught and logged; the delayed refresh is
the last statement of the try block. -/
def mintTestUSDC (w : UserWallet) (env : MintEnv) : List Ev :=
  [Ev.setLoading true,
   Ev.log "🚰 Getting 100 test USDC from faucet...",
   Ev.log ("🎯 Minting to your wallet: " ++ strTake w.address 20 ++ "..."),
   Ev.callMint USDC_ADDRESS FAUCET_PRIVATE_KEY w.address 100000000] ++
  (match env.sendResult with
   | Except.error e => [Ev.log ("❌ Faucet error: " ++ e)]
   | Except.ok h =>
     [Ev.log ("📤 Transaction sent: " ++ strTake h 20 ++ "...")] ++
     match env.waitResult with
     | Except.error e => [Ev.log ("❌ Faucet error: " ++ e)]
     | Except.ok blk =>
       [Ev.log "✅ USDC minted successfully!",
        Ev.log ("🔗 Block: " ++ toString blk),
        Ev.scheduleRefresh 2000]) ++
  [Ev.setLoading false]

/-- Results of the awaited calls of claimRewards. -/
structure ClaimEnv where
  sendResult : Except String String
  waitResult : Except String Nat

/-- claimRewards (lines 232-265): mints the 10 USDC reward (10000000 raw
units) to the user address with the faucet key; no balance is read. -/
def claimRewards (w : UserWallet) (env : ClaimEnv) : List Ev :=
  [Ev.setLoading true,
   Ev.log "🎁 Claiming browsing rewards...",
   Ev.log "🏆 Distributing 10 USDC browsing reward...",
   Ev.callMint USDC_ADDRESS FAUCET_PRIVATE_KEY w.address 10000000] ++
  (match env.sendResult with
   | Except.error e => [Ev.log ("❌ Claim error: " ++ e)]
   | Except.ok h =>
     [Ev.log ("📤 Reward transaction: " ++ strTake h 20 ++ "...")] ++
     match env.waitResult with
     | Except.error e => [Ev.log ("❌ Claim error: " ++ e)]
     | Except.ok _ =>
       [Ev.log "✅ Rewards claimed successfully!",
        Ev.log "🎉 +10 USDC for active browsing",
        Ev.scheduleRefresh 2000]) ++
  [Ev.setLoading false]

/-- Results of the awaited calls of depositUSDC; the approve send and its
receipt wait are collapsed (no observable event separates them). -/
structure DepositEnv where
  balanceOfResult : Except String Nat
  approveResult : Except String Unit

/-- depositUSDC (lines 185-229): read the user balance, abort on zero or
below 50 USDC (50000000 raw units), approve the vault, then only log the
deposit as simulated; the source never issues a vault deposit call. -/
def depositUSDC (w : UserWallet) (env : DepositEnv) : List Ev :=
  [Ev.setLoading true,
   Ev.log "🏦 Preparing USDC deposit to BrowserVault...",
   Ev.callBalanceOf USDC_ADDRESS w.address] ++
  (match env.balanceOfResult with
   | Except.error e => [Ev.log ("❌ Deposit error: " ++ e)]
   | Except.ok b =>
     if b = 0 then
       [Ev.log "❌ No USDC to deposit. Use faucet first!"]
     else if b < 50000000 then
       [Ev.log ("❌ Insufficient balance. Need 50 USDC, have " ++ formatUnits6 b)]
     else
       [Ev.log "🔐 Approving USDC spending...",
        Ev.callApprove USDC_ADDRESS w.privateKey BROWSER_VAULT 50000000] ++
       match env.approveResult with
       | Except.error e => [Ev.log ("❌ Deposit error: " ++ e)]
       | Except.ok _ =>
         [Ev.log "🏦 Depositing 50 USDC to vault...",
          Ev.log "✅ Would deposit 50 USDC to BrowserVault",
          Ev.log "📝 Note: Full vault integration requires contract ABI",
          Ev.scheduleRefresh 2000]) ++
  [Ev.setLoading false]

/-- Results of the awaited calls of transferUSDC. -/
structure TransferEnv where
  balanceOfResult : Except String Nat
  sendResult : Except String String
  waitResult : Except String Nat

/-- transferUSDC (lines 268-316): validate the recipient address, then the
amount, read the balance, parse the amount into raw units, check coverage,
and issue the transfer signed with the user key. -/
def transferUSDC (w : UserWallet) (toAddress amount : String) (env : TransferEnv) : List Ev :=
  [Ev.setLoading true,
   Ev.log ("💸 Preparing to send " ++ amount ++ " USDC...")] ++
  (if isAddress toAddress = false then
    [Ev.log "❌ Invalid recipient address"]
  else if jsLeZero (jsParseFloat amount) = true then
    [Ev.log "❌ Invalid amount"]
  else
    [Ev.callBalanceOf USDC_ADDRESS w.address] ++
    match env.balanceOfResult with
    | Except.error e => [Ev.log ("❌ Transfer failed: " ++ e)]
    | Except.ok b =>
      match parseUnits6 amount with
      | none => [Ev.log ("❌ Transfer failed: " ++ invalidDecimalError amount)]
      | some amt =>
        if b < amt then
          [Ev.log ("❌ Insufficient balance. Have " ++ formatUnits6 b ++ " USDC")]
        else
          [Ev.log ("📤 Sending " ++ amount ++ " USDC to " ++
                   strTake toAddress 8 ++ "..." ++ strSliceLast 4 toAddress),
           Ev.callTransfer USDC_ADDRESS w.privateKey toAddress amt] ++
          match env.sendResult with
          | Except.error e => [Ev.log ("❌ Transfer failed: " ++ e)]
          | Except.ok h =>
            [Ev.log ("🔄 Transaction submitted: " ++ strTake h 20 ++ "...")] ++
            match env.waitResult with
            | Except.error e => [Ev.log ("❌ Transfer failed: " ++ e)]
            | Except.ok blk =>
              [Ev.log "✅ Transfer completed!",
               Ev.log ("🔗 Block: " ++ toString blk),
               Ev.scheduleRefresh 2000]) ++
  [Ev.setLoading false]

/-! ## Success conditions (spec-side characterizations used by C3) -/

/-- mintTestUSDC runs to successful completion. -/
def mintSucceeded (env : MintEnv) : Bool :=
  env.sendResult.isOk && env.waitResult.isOk

/-- claimRewards runs to successful completion. -/
def claimSucceeded (env : ClaimEnv) : Bool :=
  env.sendResult.isOk && env.waitResult.isOk

/-- depositUSDC runs to successful completion. -/
def depositSucceeded (env : DepositEnv) : Bool :=
  (match env.balanceOfResult with
   | Except.ok b => decide (50000000 ≤ b)
   | Except.error _ => false) && env.approveResult.isOk

/-- transferUSDC runs to successful completion. -/
def transferSucceeded (toAddress amount : String) (env : TransferEnv) : Bool :=
  isAddress toAddress && !(jsLeZero (jsParseFloat amount)) &&
  (match env.balanceOfResult, parseUnits6 amount with
   | Except.ok b, some amt => decide (amt ≤ b) && env.sendResult.isOk && env.waitResult.isOk
   | _, _ => false)

/-! ## Concrete test fixtures -/

def testW : UserWallet :=
  { address := "0x1111111111111111111111111111111111111111"
    privateKey := "0x2222222222222222222222222222222222222222222222222222222222222222"
    deviceHash := "0xdeadbeefcafe01" }

def validTo : String := "0xaaaaaaaaaaaaaaaaaaaaaaaaaaaaaaaaaaaaaaaa"

def claimOkEnv : ClaimEnv :=
  { sendResult := Except.ok "0x9999999999999999999999999999999999999999"
    waitResult := Except.ok 123 }

def mintErrEnv : MintEnv :=
  { sendResult := Except.error "RPC connection refused"
    waitResult := Except.error "RPC connection refused" }

def depositOkEnv : DepositEnv :=
  { balanceOfResult := Except.ok 100000000, approveResult := Except.ok () }

def depositSixtyEnv : DepositEnv :=
  { balanceOfResult := Except.ok 60000000, approveResult := Except.ok () }

def depositZeroEnv : DepositEnv :=
  { balanceOfResult := Except.ok 0, approveResult := Except.ok () }

def depositLowEnv : DepositEnv :=
  { balanceOfResult := Except.ok 30000000, approveResult := Except.ok () }

def transferOkEnv : TransferEnv :=
  { balanceOfResult := Except.ok 5000000
    sendResult := Except.ok "0x8888888888888888888888888888888888888888"
    waitResult := Except.ok 77 }

def storedStore : StoredState := { walletRecord := some testW, deviceId := some "uuid-0" }

def initEnvA : InitEnv :=
  { freshAddress := "0x3333333333333333333333333333333333333333"
    freshPrivateKey := "0x4444444444444444444444444444444444444444444444444444444444444444"
    fingerprintHash := "0x55555555555555555555555555555555"
    freshUUID := "uuid-a" }

def initEnvB : InitEnv :=
  { freshAddress := "0x6666666666666666666666666666666666666666"
    freshPrivateKey := "0x7777777777777777777777777777777777777777777777777777777777777777"
    fingerprintHash := "0x99999999999999999999999999999999"
    freshUUID := "uuid-b" }

/-! ## Claims C1 and C2: reward and deposit sequences -/

/-- C1 (counterexample): on a successful run, the only contract interaction
claimRewards issues is a `mint` of the 10-unit reward signed by the
privileged key — there is no balance read of the privileged wallet and no
`transfer`, so the claimed check-then-transfer sequence is false on the
code. -/
theorem claim1_counterexample :
    networkCalls (claimRewards testW claimOkEnv) =
      [Ev.callMint USDC_ADDRESS FAUCET_PRIVATE_KEY testW.address 10000000] := rfl

/-- C1 (amended): for every outcome of the awaited calls, the claim-reward
operation performs no balance check at all and its only contract
interaction is a `mint` of the 10-unit reward (10000000 raw units) to the
user address signed by the privileged wallet key. -/
theorem claim1_amended (w : UserWallet) (env : ClaimEnv) :
    networkCalls (claimRewards w env) =
      [Ev.callMint USDC_ADDRESS FAUCET_PRIVATE_KEY w.address 10000000] := by
  obtain ⟨s, wr⟩ := env
  cases s <;> cases wr <;> rfl

/-- C2 (counterexample): with a covering balance and a successful approval,
the deposit operation issues exactly a balance read and an approve — no
vault `deposit` call ever appears; the deposit is only logged as
simulated. -/
theorem claim2_counterexample :
    networkCalls (depositUSDC testW depositOkEnv) =
      [Ev.callBalanceOf USDC_ADDRESS testW.address,
       Ev.callApprove USDC_ADDRESS testW.privateKey BROWSER_VAULT 50000000] ∧
    logsOf (depositUSDC testW depositOkEnv) =
      ["🏦 Preparing USDC deposit to BrowserVault...",
       "🔐 Approving USDC spending...",
       "🏦 Depositing 50 USDC to vault...",
       "✅ Would deposit 50 USDC to BrowserVault",
       "📝 Note: Full vault integration requires contract ABI"] := ⟨rfl, rfl⟩

/-- C2 (amended): when the balance covers the 50-unit deposit and the
approval succeeds, the operation performs, in order, a balance read and an
`approve` of the vault for 50 units signed with the user key, and then only
logs the deposit as simulated — no actual vault deposit call is issued. -/
theorem claim2_amended (w : UserWallet) (env : DepositEnv) (b : Nat)
    (hb : env.balanceOfResult = Except.ok b) (hge : 50000000 ≤ b)
    (ha : env.approveResult = Except.ok ()) :
    networkCalls (depositUSDC w env) =
      [Ev.callBalanceOf USDC_ADDRESS w.address,
       Ev.callApprove USDC_ADDRESS w.privateKey BROWSER_VAULT 50000000] ∧
    logsOf (depositUSDC w env) =
      ["🏦 Preparing USDC deposit to BrowserVault...",
       "🔐 Approving USDC spending...",
       "🏦 Depositing 50 USDC to vault...",
       "✅ Would deposit 50 USDC to BrowserVault",
       "📝 Note: Full vault integration requires contract ABI"] := by
  obtain ⟨bres, ares⟩ := env
  dsimp only at hb ha
  subst hb
  subst ha
  have h0 : ¬ b = 0 := by omega
  have hlt : ¬ b < 50000000 := by omega
  have ht : depositUSDC w ⟨Except.ok b, Except.ok ()⟩ =
      [Ev.setLoading true,
       Ev.log "🏦 Preparing USDC deposit to BrowserVault...",
       Ev.callBalanceOf USDC_ADDRESS w.address,
       Ev.log "🔐 Approving USDC spending...",
       Ev.callApprove USDC_ADDRESS w.privateKey BROWSER_VAULT 50000000,
       Ev.log "🏦 Depositing 50 USDC to vault...",
       Ev.log "✅ Would deposit 50 USDC to BrowserVault",
       Ev.log "📝 Note: Full vault integration requires contract ABI",
       Ev.scheduleRefresh 2000,
       Ev.setLoading false] := by
    simp [depositUSDC, h0, hlt]
  rw [ht]
  exact ⟨rfl, rfl⟩

/-- C2 (witness): claim2_amended applied at a concrete balance of 60 USDC. -/
theorem claim2_witness :
    networkCalls (depositUSDC testW depositSixtyEnv) =
      [Ev.callBalanceOf USDC_ADDRESS testW.address,
       Ev.callApprove USDC_ADDRESS testW.privateKey BROWSER_VAULT 50000000] ∧
    logsOf (depositUSDC testW depositSixtyEnv) =
      ["🏦 Preparing USDC deposit to BrowserVault...",
       "🔐 Approving USDC spending...",
       "🏦 Depositing 50 USDC to vault...",
       "✅ Would deposit 50 USDC to BrowserVault",
       "📝 Note: Full vault integration requires contract ABI"] :=
  claim2_amended testW depositSixtyEnv 60000000 rfl (by decide) rfl

/-! ## Claim C4: deposit abort below the 50-unit threshold -/

/-- C4 (counterexample): at balance 0 the deposit aborts, but the logged
message is the no-funds message, which reports no shortfall amounts, and a
balance-read contract call has already been issued — so the claimed
shortfall-reporting message and the claimed absence of contract calls both
fail at balance 0. -/
theorem claim4_counterexample :
    depositUSDC testW depositZeroEnv =
      [Ev.setLoading true,
       Ev.log "🏦 Preparing USDC deposit to BrowserVault...",
       Ev.callBalanceOf USDC_ADDRESS testW.address,
       Ev.log "❌ No USDC to deposit. Use faucet first!",
       Ev.setLoading false] := rfl

/-- C4 (amended): when the balance is below 50 units the deposit aborts
before the approve and deposit steps — the only contract call issued is the
initial balance read, no refresh is scheduled — and it logs the plain
no-funds message at balance 0, or the shortfall-reporting message for
0 < balance < 50. -/
theorem claim4_amended (w : UserWallet) (env : DepositEnv) (b : Nat)
    (hb : env.balanceOfResult = Except.ok b) (hlt : b < 50000000) :
    networkCalls (depositUSDC w env) = [Ev.callBalanceOf USDC_ADDRESS w.address] ∧
    Ev.scheduleRefresh 2000 ∉ depositUSDC w env ∧
    (b = 0 → logsOf (depositUSDC w env) =
      ["🏦 Preparing USDC deposit to BrowserVault...",
       "❌ No USDC to deposit. Use faucet first!"]) ∧
    (0 < b → logsOf (depositUSDC w env) =
      ["🏦 Preparing USDC deposit to BrowserVault...",
       "❌ Insufficient balance. Need 50 USDC, have " ++ formatUnits6 b]) := by
  obtain ⟨bres, ares⟩ := env
  dsimp only at hb
  subst hb
  by_cases h0 : b = 0
  · subst h0
    refine ⟨rfl, ?_, fun _ => rfl, fun h => absurd h (by omega)⟩
    simp [depositUSDC]
  · have ht : depositUSDC w ⟨Except.ok b, ares⟩ =
        [Ev.setLoading true,
         Ev.log "🏦 Preparing USDC deposit to BrowserVault...",
         Ev.callBalanceOf USDC_ADDRESS w.address,
         Ev.log ("❌ Insufficient balance. Need 50 USDC, have " ++ formatUnits6 b),
         Ev.setLoading false] := by
      simp [depositUSDC, h0, hlt]
    rw [ht]
    exact ⟨rfl, by simp, fun h => absurd h h0, fun _ => rfl⟩

/-- C4 (witness): claim4_amended applied at a concrete balance of 30 USDC;
the shortfall message renders the held balance as 30.0. -/
theorem claim4_witness :
    networkCalls (depositUSDC testW depositLowEnv) =
      [Ev.callBalanceOf USDC_ADDRESS testW.address] ∧
    Ev.scheduleRefresh 2000 ∉ depositUSDC testW depositLowEnv ∧
    ((30000000 : Nat) = 0 → logsOf (depositUSDC testW depositLowEnv) =
      ["🏦 Preparing USDC deposit to BrowserVault...",
       "❌ No USDC to deposit. Use faucet first!"]) ∧
    ((0 : Nat) < 30000000 → logsOf (depositUSDC testW depositLowEnv) =
      ["🏦 Preparing USDC deposit to BrowserVault...",
       "❌ Insufficient balance. Need 50 USDC, have 30.0"]) :=
  claim4_amended testW depositLowEnv 30000000 rfl (by decide)

/-! ## Claim C5: wallet identity persistence -/

/-- C5 (counterexample): first-run creation performs two localStorage
writes — the wallet record and the installation id — so persistent storage
is not written exactly once. -/
theorem claim5_counterexample :
    (initializeWallet emptyStore initEnvA).writes = [StorageKey.wallet, StorageKey.deviceId] ∧
    ((initializeWallet emptyStore initEnvA).writes).length ≠ 1 := by decide

/-- C5 (amended): a persisted wallet record is returned unchanged with no
writes (so two calls yield the identical record, address and private key
included); storage is written only on first-run creation, which writes the
wallet record once and the installation id once, and the immediately
following call returns the just-created record with no further writes. -/
theorem claim5_amended :
    (∀ s env wd, s.walletRecord = some wd →
      (initializeWallet s env).result = wd ∧
      (initializeWallet s env).store = s ∧
      (initializeWallet s env).writes = []) ∧
    (∀ s env env2, s.walletRecord = none →
      (initializeWallet (initializeWallet s env).store env2).result =
        (initializeWallet s env).result ∧
      (initializeWallet (initializeWallet s env).store env2).writes = [] ∧
      (initializeWallet s env).writes = [StorageKey.wallet, StorageKey.deviceId]) := by
  constructor
  · intro s env wd h
    simp [initializeWallet, h]
  · intro s env env2 h
    simp [initializeWallet, h]

/-- C5 (witness): claim5_amended applied to a store already holding testW
and to a two-call run from the empty store. -/
theorem claim5_witness :
    ((initializeWallet storedStore initEnvA).result = testW ∧
     (initializeWallet storedStore initEnvA).store = storedStore ∧
     (initializeWallet storedStore initEnvA).writes = []) ∧
    ((initializeWallet (initializeWallet emptyStore initEnvA).store initEnvB).result =
       (initializeWallet emptyStore initEnvA).result ∧
     (initializeWallet (initializeWallet emptyStore initEnvA).store initEnvB).writes = [] ∧
     (initializeWallet emptyStore initEnvA).writes = [StorageKey.wallet, StorageKey.deviceId]) :=
  ⟨claim5_amended.1 storedStore initEnvA testW rfl,
   claim5_amended.2 emptyStore initEnvA initEnvB rfl⟩

/-! ## Claim C10: home navigation target -/

/-- C10: the Home button and the first quick-access entry pass the
root-relative path /google-home.html to navigateToUrl, which prefixes the
scheme unconditionally, so the viewport target becomes
https:///google-home.html instead of the local path. -/
theorem claim10_home_navigation :
    homeButtonUrl = "/google-home.html" ∧
    safeSites.head? = some ("Google", "/google-home.html") ∧
    (navigateToUrl homeButtonUrl).currentUrl = "https:///google-home.html" ∧
    (navigateToUrl homeButtonUrl).currentUrl ≠ homeButtonUrl :=
  ⟨rfl, rfl, by decide, by decide⟩

/-! ## Claim C3: when the delayed refresh is scheduled -/

theorem refresh_mint_iff (w : UserWallet) (env : MintEnv) :
    Ev.scheduleRefresh 2000 ∈ mintTestUSDC w env ↔ mintSucceeded env = true := by
  obtain ⟨s, wr⟩ := env
  cases s <;> cases wr <;> simp [mintTestUSDC, mintSucceeded, Except.isOk, Except.toBool, Except.toBool]

theorem refresh_claim_iff (w : UserWallet) (env : ClaimEnv) :
    Ev.scheduleRefresh 2000 ∈ claimRewards w env ↔ claimSucceeded env = true := by
  obtain ⟨s, wr⟩ := env
  cases s <;> cases wr <;> simp [claimRewards, claimSucceeded, Except.isOk, Except.toBool, Except.toBool]

theorem refresh_deposit_iff (w : UserWallet) (env : DepositEnv) :
    Ev.scheduleRefresh 2000 ∈ depositUSDC w env ↔ depositSucceeded env = true := by
  obtain ⟨bres, ares⟩ := env
  cases bres with
  | error e => simp [depositUSDC, depositSucceeded, Except.isOk, Except.toBool, Except.toBool]
  | ok b =>
    by_cases h0 : b = 0
    · subst h0
      simp [depositUSDC, depositSucceeded, Except.isOk, Except.toBool, Except.toBool]
    · by_cases hlt : b < 50000000
      · have hn : ¬ 50000000 ≤ b := by omega
        simp [depositUSDC, depositSucceeded, Except.isOk, Except.toBool, h0, hlt, hn]
      · have hge : 50000000 ≤ b := by omega
        cases ares with
        | error e => simp [depositUSDC, depositSucceeded, Except.isOk, Except.toBool, h0, hlt, hge]
        | ok u => simp [depositUSDC, depositSucceeded, Except.isOk, Except.toBool, h0, hlt, hge]

theorem refresh_transfer_iff (w : UserWallet) (toA amt : String) (env : TransferEnv) :
    Ev.scheduleRefresh 2000 ∈ transferUSDC w toA amt env ↔
      transferSucceeded toA amt env = true := by
  obtain ⟨bres, sres, wres⟩ := env
  cases hA : isAddress toA with
  | false => simp [transferUSDC, transferSucceeded, hA]
  | true =>
    cases hLe : jsLeZero (jsParseFloat amt) with
    | true => simp [transferUSDC, transferSucceeded, hA, hLe]
    | false =>
      cases bres with
      | error e => simp [transferUSDC, transferSucceeded, Except.isOk, Except.toBool, hA, hLe]
      | ok b =>
        cases hP : parseUnits6 amt with
        | none => simp [transferUSDC, transferSucceeded, Except.isOk, Except.toBool, hA, hLe, hP]
        | some a =>
          by_cases hab : b < a
          · have hn : ¬ a ≤ b := by omega
            simp [transferUSDC, transferSucceeded, Except.isOk, Except.toBool, hA, hLe, hP, hab, hn]
          · have hle : a ≤ b := by omega
            cases sres with
            | error e => simp [transferUSDC, transferSucceeded, Except.isOk, Except.toBool, hA, hLe, hP, hab]
            | ok h =>
              cases wres with
              | error e =>
                simp [transferUSDC, transferSucceeded, Except.isOk, Except.toBool, hA, hLe, hP, hab]
              | ok blk =>
                simp [transferUSDC, transferSucceeded, Except.isOk, Except.toBool, hA, hLe, hP, hab, hle]

/-- C3 (counterexample): a failing faucet mint schedules no delayed
balance refresh — the refresh is not scheduled on the error path. -/
theorem claim3_counterexample :
    Ev.scheduleRefresh 2000 ∉ mintTestUSDC testW mintErrEnv ∧
    Ev.log ("❌ Faucet error: " ++ "RPC connection refused") ∈ mintTestUSDC testW mintErrEnv := by
  decide

/-- C3 (amended): for each of the four wallet operations, the delayed
(2-time-unit) balance refresh is scheduled exactly when the operation runs
to successful completion; on a thrown error or a validation abort no
refresh is scheduled. -/
theorem claim3_amended :
    (∀ w env, Ev.scheduleRefresh 2000 ∈ mintTestUSDC w env ↔ mintSucceeded env = true) ∧
    (∀ w env, Ev.scheduleRefresh 2000 ∈ claimRewards w env ↔ claimSucceeded env = true) ∧
    (∀ w env, Ev.scheduleRefresh 2000 ∈ depositUSDC w env ↔ depositSucceeded env = true) ∧
    (∀ w toA amt env, Ev.scheduleRefresh 2000 ∈ transferUSDC w toA amt env ↔
      transferSucceeded toA amt env = true) :=
  ⟨refresh_mint_iff, refresh_claim_iff, refresh_deposit_iff, refresh_transfer_iff⟩

/-! ## Claim C6: activity-log capping -/

theorem isSuffix_append_same {α : Type} {l₁ l₂ : List α} (x : List α)
    (h : List.IsSuffix l₁ l₂) : List.IsSuffix (l₁ ++ x) (l₂ ++ x) := by
  obtain ⟨t, ht⟩ := h
  exact ⟨t, by rw [← List.append_assoc, ht]⟩

theorem addLog_foldl_suffix (ts : String) (msgs : List String) (prev : List String) :
    List.IsSuffix (List.foldl (fun l m => addLog ts m l) prev msgs)
      (prev ++ msgs.map (stampLog ts)) := by
  induction msgs generalizing prev with
  | nil => simp
  | cons m ms ih =>
    simp only [List.foldl_cons, List.map_cons]
    have h1 : List.IsSuffix (addLog ts m prev) (prev ++ [stampLog ts m]) :=
      isSuffix_append_same [stampLog ts m] (List.drop_suffix _ _)
    have h2 := ih (addLog ts m prev)
    have h3 := isSuffix_append_same (ms.map (stampLog ts)) h1
    have h4 : (prev ++ [stampLog ts m]) ++ ms.map (stampLog ts) =
        prev ++ stampLog ts m :: ms.map (stampLog ts) := by simp
    exact h4 ▸ h2.trans h3

/-- C6: the activity log is append-only and bounded: appending 15 messages
to the single initial entry leaves exactly the 11 most recent entries in
insertion order; every append yields at most 11 entries (the last 10 prior
plus the new one); and any sequence of appends yields a suffix of the full
append history, so survivor order is insertion order. -/
theorem claim6_log_bounded :
    (List.foldl (fun l m => addLog "10:00:00 AM" m l) initialLogs
        ["m01", "m02", "m03", "m04", "m05", "m06", "m07", "m08",
         "m09", "m10", "m11", "m12", "m13", "m14", "m15"] =
      ["[10:00:00 AM] m05", "[10:00:00 AM] m06", "[10:00:00 AM] m07",
       "[10:00:00 AM] m08", "[10:00:00 AM] m09", "[10:00:00 AM] m10",
       "[10:00:00 AM] m11", "[10:00:00 AM] m12", "[10:00:00 AM] m13",
       "[10:00:00 AM] m14", "[10:00:00 AM] m15"]) ∧
    (∀ ts msg prev, (addLog ts msg prev).length ≤ 11) ∧
    (∀ ts msgs prev, List.IsSuffix (List.foldl (fun l m => addLog ts m l) prev msgs)
      (prev ++ msgs.map (stampLog ts))) := by
  refine ⟨by decide, ?_, addLog_foldl_suffix⟩
  intro ts msg prev
  simp only [addLog, jsSliceLast, List.length_append, List.length_drop, List.length_cons,
    List.length_nil]
  omega

/-! ## Claims C7 and C9: transfer validation -/

/-- C7: transfer validation checks the address first and the amount second,
each aborting with its specific message before any contract call: a
malformed address such as not-an-address aborts with the invalid-address
message whatever the amount, and a well-formed address with amount 0
(which parses to 0) aborts with the invalid-amount message; in both cases
the full trace shows no network call and no balance read. -/
theorem claim7_transfer_validation :
    isAddress "not-an-address" = false ∧
    jsLeZero (jsParseFloat "0") = true ∧
    (∀ w toA amt env, isAddress toA = false →
      transferUSDC w toA amt env =
        [Ev.setLoading true,
         Ev.log ("💸 Preparing to send " ++ amt ++ " USDC..."),
         Ev.log "❌ Invalid recipient address",
         Ev.setLoading false]) ∧
    (∀ w toA amt env, isAddress toA = true → jsLeZero (jsParseFloat amt) = true →
      transferUSDC w toA amt env =
        [Ev.setLoading true,
         Ev.log ("💸 Preparing to send " ++ amt ++ " USDC..."),
         Ev.log "❌ Invalid amount",
         Ev.setLoading false]) := by
  refine ⟨by decide, by decide, ?_, ?_⟩
  · intro w toA amt env h
    simp [transferUSDC, h]
  · intro w toA amt env h1 h2
    simp [transferUSDC, h1, h2]

/-- C7 (witness): claim7_transfer_validation applied to the malformed
address not-an-address with amount 5. -/
theorem claim7_witness :
    transferUSDC testW "not-an-address" "5" transferOkEnv =
      [Ev.setLoading true,
       Ev.log "💸 Preparing to send 5 USDC...",
       Ev.log "❌ Invalid recipient address",
       Ev.setLoading false] :=
  claim7_transfer_validation.2.2.1 testW "not-an-address" "5" transferOkEnv (by decide)

/-- C9: a non-numeric amount string such as abc parses to NaN, the guard
NaN <= 0 is false, so the transfer does not log the invalid-amount message
and proceeds past validation: the balance read is issued (and nothing
else — no transfer call), and the run then fails in the generic catch
branch with the transfer-failed message from the parseUnits error. -/
theorem claim9_nan_amount (w : UserWallet) (toA : String) (env : TransferEnv) (b : Nat)
    (ha : isAddress toA = true) (hb : env.balanceOfResult = Except.ok b) :
    jsParseFloat "abc" = none ∧
    jsLeZero (jsParseFloat "abc") = false ∧
    networkCalls (transferUSDC w toA "abc" env) = [Ev.callBalanceOf USDC_ADDRESS w.address] ∧
    logsOf (transferUSDC w toA "abc" env) =
      ["💸 Preparing to send abc USDC...",
       "❌ Transfer failed: " ++ invalidDecimalError "abc"] := by
  obtain ⟨bres, sres, wres⟩ := env
  dsimp only at hb
  subst hb
  have hLe : jsLeZero (jsParseFloat "abc") = false := rfl
  have hP : parseUnits6 "abc" = none := rfl
  have ht : transferUSDC w toA "abc" ⟨Except.ok b, sres, wres⟩ =
      [Ev.setLoading true,
       Ev.log ("💸 Preparing to send " ++ "abc" ++ " USDC..."),
       Ev.callBalanceOf USDC_ADDRESS w.address,
       Ev.log ("❌ Transfer failed: " ++ invalidDecimalError "abc"),
       Ev.setLoading false] := by
    simp [transferUSDC, ha, hLe, hP]
  refine ⟨rfl, rfl, ?_, ?_⟩ <;> rw [ht] <;> rfl

/-- C9 (witness): claim9_nan_amount applied to a well-formed recipient with
a 5 USDC balance. -/
theorem claim9_witness :
    jsParseFloat "abc" = none ∧
    jsLeZero (jsParseFloat "abc") = false ∧
    networkCalls (transferUSDC testW validTo "abc" transferOkEnv) =
      [Ev.callBalanceOf USDC_ADDRESS testW.address] ∧
    logsOf (transferUSDC testW validTo "abc" transferOkEnv) =
      ["💸 Preparing to send abc USDC...",
       "❌ Transfer failed: " ++ invalidDecimalError "abc"] :=
  claim9_nan_amount testW validTo transferOkEnv 5000000 (by decide) rfl

/-! ## Claim C8: URL scheme normalization -/

/-- C8: navigateToUrl prefixes https:// onto a URL lacking a scheme —
example.com becomes https://example.com as the viewport target — and
leaves any input already starting with http:// or https:// unchanged. -/
theorem claim8_url_normalization :
    normalizeNavUrl "example.com" = "https://example.com" ∧
    (navigateToUrl "example.com").currentUrl = "https://example.com" ∧
    (∀ u, strStartsWith u "http://" = true ∨ strStartsWith u "https://" = true →
      normalizeNavUrl u = u ∧ (navigateToUrl u).currentUrl = u) := by
  refine ⟨by decide, by decide, ?_⟩
  intro u h
  have hu : normalizeNavUrl u = u := by
    rcases h with h | h <;> simp [normalizeNavUrl, h]
  exact ⟨hu, by simp [navigateToUrl, hu]⟩

/-- C8 (witness): claim8_url_normalization applied to an input already
carrying the http scheme. -/
theorem claim8_witness :
    normalizeNavUrl "http://example.com" = "http://example.com" ∧
    (navigateToUrl "http://example.com").currentUrl = "http://example.com" :=
  claim8_url_normalization.2.2 "http://example.com" (Or.inl (by decide))

end BurgerBrows
